import Mathlib

/-!
Verification of the FeedMovie recommendation pipeline.

This file gives a shallow embedding of the core generation pipeline of the
FeedMovie repository (backend/recommender.py, backend/ai_ensemble.py,
backend/cf_engine.py, backend/database.py) and proves properties of it.

Modelling conventions:
* Python floats are modelled as exact rationals.  All score constants in the
  source (0.80, 0.20, 0.1, 0.5) are short decimal literals, so the rational
  model tracks the intent of the arithmetic exactly.
* Python dicts used as records become structures; a missing key becomes an
  Option field.  Python sets are modelled as lists with membership tests.
* The insertion-ordered dict `movie_scores` (a defaultdict) is modelled as an
  association list in which a new key is appended at the end, matching dict
  iteration order.
* Python `sorted(..., key=..., reverse=True)` and `list.sort(...)` are stable
  descending sorts; they are modelled by a stable insertion sort
  (`sortDescBy`), which agrees extensionally with any stable sort.
* External effects (LLM API calls, TMDB lookups, the SVD fit, the SQLite
  store) are passed in as explicit oracle functions; the database tables that
  the pipeline reads and writes become explicit values.
* Wall-clock columns of generation jobs (created_at, completed_at,
  duration_seconds) are outside the embedding and are omitted.
-/

namespace FeedMovie

attribute [local semireducible] Rat.add Rat.mul Rat.inv Rat.sub

/-! ## Python string primitives

The Lean `String` library functions do not reduce in the kernel, so the
Python string operations used by the source are modelled directly on the
underlying character list. -/

/-- Python `str.lower()` (the titles in play are ASCII). -/
def pyLower (s : String) : String := ⟨s.data.map Char.toLower⟩

/-- Python `str.strip()`: drop leading and trailing whitespace. -/
def pyStrip (s : String) : String :=
  ⟨((s.data.dropWhile Char.isWhitespace).reverse.dropWhile Char.isWhitespace).reverse⟩

/-- Python `str.replace(c, '')` for a single character `c`. -/
def pyDeleteChar (c : Char) (s : String) : String := ⟨s.data.filter (fun d => d ≠ c)⟩

/-! ## Data model -/

/-- One source's suggestion, as parsed from the model's JSON array
(ai_ensemble.py).  A missing `year`/`streaming` key is `none`; `title` and
`reasoning` are read with `rec.get(k, '')` defaults in the source. -/
structure Proposal where
  title : String
  year : Option Int
  reasoning : String
  streaming : Option String
deriving DecidableEq

/-- A collaborative-filtering recommendation dict (cf_engine.py,
`get_cf_recommendations`): always carries `title`, `year`, `tmdb_id`,
`score` (the SVD-predicted rating) and `reasoning`. -/
structure CFRec where
  title : String
  year : Option Int
  tmdb_id : Nat
  score : ℚ
  reasoning : String
deriving DecidableEq

/-- An entry of the `movie_scores` defaultdict in `aggregate_recommendations`
(recommender.py:61-69).  Fields start at the defaultdict's initial values. -/
structure Cand where
  title : Option String
  year : Option Int
  score : ℚ
  sources : List String
  reasons : List String
  tmdb_id : Option Nat
  streaming : Option String
deriving DecidableEq

/-- The defaultdict initial value (recommender.py:61-69). -/
def emptyCand : Cand :=
  { title := none, year := none, score := 0, sources := [], reasons := [],
    tmdb_id := none, streaming := none }

instance : Inhabited Cand := ⟨emptyCand⟩

/-! ## Aggregator (recommender.py, `aggregate_recommendations`) -/

/-- `normalize_title` (recommender.py:57-58):
`title.lower().strip().replace(':', '').replace('-', '')`. -/
def normalize_title (title : String) : String :=
  pyDeleteChar '-' (pyDeleteChar ':' (pyStrip (pyLower title)))

/-- The merge key of a proposal: `(normalize_title(title), year)`
(recommender.py:90). -/
abbrev MergeKey := String × Option Int

def Proposal.mergeKey (r : Proposal) : MergeKey := (normalize_title r.title, r.year)

def CFRec.mergeKey (r : CFRec) : MergeKey := (normalize_title r.title, r.year)

/-- The `movie_scores` dict: association list in dict insertion order. -/
abbrev ScoreMap := List (MergeKey × Cand)

/-- `movie_scores[key]` access followed by in-place mutation `f`: an existing
entry is updated in place, a fresh key is appended at the end with the
defaultdict initial value (Python dicts preserve first-insertion order). -/
def updKey (m : ScoreMap) (k : MergeKey) (f : Cand → Cand) : ScoreMap :=
  match m with
  | [] => [(k, f emptyCand)]
  | (k₁, c) :: rest => if k₁ = k then (k₁, f c) :: rest else (k₁, c) :: updKey rest k f

/-- The mutation performed for one AI proposal (recommender.py:92-103). -/
def applyAIRec (source : String) (weight : ℚ) (rec : Proposal) (c : Cand) : Cand :=
  { c with
    title := some rec.title
    year := rec.year
    score := c.score + weight
    sources := if source ∈ c.sources then c.sources else c.sources ++ [source]
    reasons :=
      if rec.reasoning ≠ "" ∧ rec.reasoning ∉ c.reasons then c.reasons ++ [rec.reasoning]
      else c.reasons
    streaming :=
      match rec.streaming with
      | some s => some s
      | none => c.streaming }

/-- The CF weight literal `0.20` added per CF recommendation
(recommender.py:113). -/
def cf_weight : ℚ := 1/5

/-- The mutation performed for one CF recommendation (recommender.py:111-121). -/
def applyCFRec (rec : CFRec) (c : Cand) : Cand :=
  { c with
    title := some rec.title
    year := rec.year
    score := c.score + cf_weight
    sources := if "cf" ∈ c.sources then c.sources else c.sources ++ ["cf"]
    reasons :=
      if rec.reasoning ≠ "" ∧ rec.reasoning ∉ c.reasons then c.reasons ++ [rec.reasoning]
      else c.reasons
    tmdb_id := some rec.tmdb_id }

/-- Fold one source's proposal list into the map (recommender.py:85-103). -/
def foldSource (m : ScoreMap) (source : String) (weight : ℚ) (recs : List Proposal) : ScoreMap :=
  recs.foldl (fun m₁ rec => updKey m₁ rec.mergeKey (applyAIRec source weight rec)) m

/-- `active_ai_models`: the sources whose result list is non-empty
(recommender.py:72). -/
def active_ai_models (ai_results : List (String × List Proposal)) : List String :=
  (ai_results.filter (fun p => ¬ p.2.isEmpty)).map Prod.fst

def num_ai_models (ai_results : List (String × List Proposal)) : Nat :=
  (active_ai_models ai_results).length

/-- `ai_weight_per_model` (recommender.py:75-78): 0.80 split among the
active models, 0 when none is active. -/
def ai_weight_per_model (ai_results : List (String × List Proposal)) : ℚ :=
  if num_ai_models ai_results = 0 then 0 else (4/5) / (num_ai_models ai_results : ℚ)

/-- The `weights` dict with `weights.get(source, 0.0)` access
(recommender.py:80,86). -/
def weights (ai_results : List (String × List Proposal)) (source : String) : ℚ :=
  if source ∈ active_ai_models ai_results then ai_weight_per_model ai_results else 0

/-- The consensus bonus (recommender.py:124-129): +0.1 per source beyond
the first. -/
def consensusBonus (c : Cand) : Cand :=
  if 1 < c.sources.length then
    { c with score := c.score + ((c.sources.length - 1 : ℕ) : ℚ) * (1/10) }
  else c

/-- Stable insertion of `x` into a descending-sorted list: `x` goes after
every element whose key is greater or equal (so equal keys keep their
original relative order). -/
def insertDescBy {α : Type} (key : α → ℚ) (x : α) : List α → List α
  | [] => [x]
  | y :: ys => if key x ≤ key y then y :: insertDescBy key x ys else x :: y :: ys

/-- Stable descending sort, the model of Python
`sorted(..., key=..., reverse=True)` and `list.sort(..., reverse=True)`. -/
def sortDescBy {α : Type} (key : α → ℚ) (l : List α) : List α :=
  l.foldl (fun acc x => insertDescBy key x acc) []

/-- The `movie_scores` dict after folding every AI source and then the CF
results (recommender.py:85-121). -/
def movie_scores (ai_results : List (String × List Proposal)) (cf_results : List CFRec) :
    ScoreMap :=
  let m := ai_results.foldl (fun m₁ p => foldSource m₁ p.1 (weights ai_results p.1) p.2) []
  cf_results.foldl (fun m₁ rec => updKey m₁ rec.mergeKey (applyCFRec rec)) m

/-- The accumulated, consensus-adjusted candidate list, in dict order
(recommender.py:85-129): all AI sources folded, then CF, then the bonus. -/
def scoredCandidates (ai_results : List (String × List Proposal)) (cf_results : List CFRec) :
    List Cand :=
  ((movie_scores ai_results cf_results).map Prod.snd).map consensusBonus

/-- `aggregate_recommendations` (recommender.py:34-139). -/
def aggregate_recommendations (ai_results : List (String × List Proposal))
    (cf_results : List CFRec) : List Cand :=
  sortDescBy Cand.score (scoredCandidates ai_results cf_results)

/-- The merge keys of all proposals of a run, in processing order. -/
def proposalKeys (ai_results : List (String × List Proposal)) (cf_results : List CFRec) :
    List MergeKey :=
  (ai_results.map (fun p => p.2.map Proposal.mergeKey)).flatten ++ cf_results.map CFRec.mergeKey

/-- Modelled from the spec: the spec (§4.4) describes the normalization as
case-folding plus punctuation-stripping; this definition strips every ASCII
punctuation mark, for comparison with the source's `normalize_title`. -/
def is_punct (c : Char) : Bool :=
  c ∈ [':', '-', '.', ',', ';', '!', '?', '"']

def normalize_title_spec (title : String) : String :=
  ⟨(pyStrip (pyLower title)).data.filter (fun c => ¬ is_punct c)⟩

/-! ## Ensemble fan-out (ai_ensemble.py)

Each `get_X_recommendations` function returns `[]` when its API key is not
set, and wraps the API call plus JSON parsing in a try/except that returns
`[]` on any exception; a parse miss also returns `[]`.  The call-and-parse of
each backing model is abstracted as an `Except Unit (List Proposal)` oracle
(the taste-context and count arguments only shape the prompt, so they are
folded into the oracle). -/

structure AIEnv where
  anthropic_key : Bool
  openai_key : Bool
  google_key : Bool
  claude_response : Except Unit (List Proposal)
  chatgpt_response : Except Unit (List Proposal)
  gemini_response : Except Unit (List Proposal)

/-- `get_claude_recommendations` (ai_ensemble.py:191-228). -/
def get_claude_recommendations (env : AIEnv) : List Proposal :=
  if ¬ env.anthropic_key then []
  else
    match env.claude_response with
    | .ok recs => recs
    | .error _ => []

/-- `get_chatgpt_recommendations` (ai_ensemble.py:231-269). -/
def get_chatgpt_recommendations (env : AIEnv) : List Proposal :=
  if ¬ env.openai_key then []
  else
    match env.chatgpt_response with
    | .ok recs => recs
    | .error _ => []

/-- `get_gemini_recommendations` (ai_ensemble.py:272-309). -/
def get_gemini_recommendations (env : AIEnv) : List Proposal :=
  if ¬ env.google_key then []
  else
    match env.gemini_response with
    | .ok recs => recs
    | .error _ => []

/-- `get_all_ai_recommendations` (ai_ensemble.py:312-387).  The `results`
dict is initialized with all three keys mapped to `[]`; the claude and gemini
tasks are always submitted, the chatgpt task only when the OpenAI key is set;
a worker exception is caught per task and leaves `[]`.  The thread pool joins
on every task before the mapping is returned, and each worker owns its own
entry, so the result is the same as the sequential composition below. -/
def get_all_ai_recommendations (env : AIEnv) : List (String × List Proposal) :=
  [("claude", get_claude_recommendations env),
   ("chatgpt", if env.openai_key then get_chatgpt_recommendations env else []),
   ("gemini", get_gemini_recommendations env)]

/-! ## Collaborative filtering (cf_engine.py) -/

/-- A row of the user's historical ratings (database.get_all_ratings). -/
structure Rating where
  tmdb_id : Nat
  title : String
  year : Option Int
  rating : ℚ
  genres : List String
deriving DecidableEq

/-- A candidate movie from the TMDB popularity feed (tmdb_client.get_popular_movies). -/
structure PopMovie where
  tmdb_id : Nat
  title : String
  year : Option Int
deriving DecidableEq

/-- `train_cf_model` (cf_engine.py:16-51).  The surprise SVD fit is an
external numeric procedure, abstracted as the oracle `svdFit`; the trained
model is its prediction function `tmdb_id -> predicted rating`. -/
def train_cf_model (svdFit : List Rating → (Nat → ℚ)) (ratings : List Rating) :
    Option (Nat → ℚ) :=
  if ratings.isEmpty ∨ ratings.length < 5 then none else some (svdFit ratings)

/-- The rationale string of a CF recommendation (cf_engine.py:99); Python's
one-decimal float formatting is abstracted by `toString`. -/
def cfReasoning (est : ℚ) : String :=
  "Predicted rating: " ++ toString est ++ "/5.0 based on your preferences"

/-- `get_cf_recommendations` (cf_engine.py:54-109). -/
def get_cf_recommendations (get_popular : Nat → List PopMovie)
    (model : Option (Nat → ℚ)) (ratings : List Rating) (count : Nat) : List CFRec :=
  match model with
  | none => []
  | some predict =>
    let watched_ids := ratings.map (·.tmdb_id)
    let candidates := get_popular 1 ++ get_popular 2
    let unwatched := candidates.filter (fun m => decide (m.tmdb_id ∉ watched_ids))
    if unwatched.isEmpty then []
    else
      let predictions := unwatched.map (fun movie =>
        { title := movie.title, year := movie.year, tmdb_id := movie.tmdb_id,
          score := predict movie.tmdb_id,
          reasoning := cfReasoning (predict movie.tmdb_id) : CFRec })
      (sortDescBy CFRec.score predictions).take count

/-- `generate_cf_recommendations` (cf_engine.py:112-138); `ratings` is the
result of its `get_all_ratings()` call. -/
def generate_cf_recommendations (ratings : List Rating)
    (svdFit : List Rating → (Nat → ℚ)) (get_popular : Nat → List PopMovie)
    (count : Nat) : List CFRec :=
  if ratings.isEmpty then []
  else
    match train_cf_model svdFit ratings with
    | none => []
    | some model => get_cf_recommendations get_popular (some model) ratings count

/-! ## TMDB enrichment (recommender.py, `enrich_with_tmdb`) -/

/-- The movie data returned by tmdb_client.get_movie_details / search_movie. -/
structure Movie where
  tmdb_id : Nat
  title : String
  year : Option Int
  poster_path : Option String
  genres : List String
  overview : String
  streaming_providers : List (String × String)
  imdb_id : Option String
  tmdb_rating : Option ℚ
  imdb_rating : Option ℚ
  rt_rating : Option ℚ
deriving DecidableEq

/-- An enriched recommendation dict: the aggregated fields plus the TMDB
metadata copied onto it (recommender.py:154-182). -/
structure ERec where
  title : String
  year : Option Int
  score : ℚ
  sources : List String
  reasons : List String
  tmdb_id : Nat
  poster_path : Option String
  genres : List String
  overview : String
  streaming_providers : List (String × String)
  imdb_id : Option String
  tmdb_rating : Option ℚ
  imdb_rating : Option ℚ
  rt_rating : Option ℚ
deriving DecidableEq

instance : Inhabited ERec :=
  ⟨{ title := "", year := none, score := 0, sources := [], reasons := [], tmdb_id := 0,
     poster_path := none, genres := [], overview := "", streaming_providers := [],
     imdb_id := none, tmdb_rating := none, imdb_rating := none, rt_rating := none }⟩

/-- Copy the TMDB fields of `movie_data` onto the aggregated rec, keeping
identity `tid` (recommender.py:158-165 and 173-181; a candidate's `title` is
always set by aggregation, so the `getD` default is never read). -/
def enrichFromDetails (rec : Cand) (tid : Nat) (movie_data : Movie) : ERec :=
  { title := rec.title.getD "", year := rec.year, score := rec.score,
    sources := rec.sources, reasons := rec.reasons, tmdb_id := tid,
    poster_path := movie_data.poster_path, genres := movie_data.genres,
    overview := movie_data.overview,
    streaming_providers := movie_data.streaming_providers,
    imdb_id := movie_data.imdb_id, tmdb_rating := movie_data.tmdb_rating,
    imdb_rating := movie_data.imdb_rating, rt_rating := movie_data.rt_rating }

/-- `enrich_with_tmdb` (recommender.py:142-188): a rec carrying a TMDB id is
enriched via `get_movie_details`; otherwise TMDB search is tried and a miss
drops the rec. -/
def enrich_with_tmdb (get_movie_details : Nat → Movie)
    (search_movie : String → Option Int → Option Movie) : List Cand → List ERec
  | [] => []
  | rec :: rest =>
    match rec.tmdb_id with
    | some tid =>
      enrichFromDetails rec tid (get_movie_details tid) ::
        enrich_with_tmdb get_movie_details search_movie rest
    | none =>
      match search_movie (rec.title.getD "") rec.year with
      | some movie_data =>
        enrichFromDetails rec movie_data.tmdb_id movie_data ::
          enrich_with_tmdb get_movie_details search_movie rest
      | none => enrich_with_tmdb get_movie_details search_movie rest

/-- The enrichment step as invoked by the pipeline (recommender.py:387):
the aggregated list is cut to `count` entries `aggregated[:count]` and only
then enriched. -/
def enrichAfterAggregation (get_movie_details : Nat → Movie)
    (search_movie : String → Option Int → Option Movie) (count : Nat)
    (aggregated : List Cand) : List ERec :=
  enrich_with_tmdb get_movie_details search_movie (aggregated.take count)

/-! ## Diversity enforcer (recommender.py, `ensure_genre_diversity`) -/

/-- A genre-fill rec parsed from the fallback model's JSON array
(recommender.py:284-298). -/
structure GRec where
  title : String
  year : Option Int
  reasoning : String
deriving DecidableEq

/-- The fixed target genres (recommender.py:201). -/
def target_genres : List String :=
  ["Action", "Comedy", "Drama", "Science Fiction", "Horror", "Romance"]

/-- How many enriched movies carry the genre (recommender.py:204-207,
`len(genre_counts[genre])`). -/
def genre_count (enriched : List ERec) (genre : String) : Nat :=
  (enriched.filter (fun m => decide (genre ∈ m.genres))).length

/-- The under-represented target genres with how many more each needs
(recommender.py:217-223). -/
def under_represented (enriched : List ERec) (min_per_genre : Nat) :
    List (String × Nat) :=
  target_genres.filterMap (fun genre =>
    if genre_count enriched genre < min_per_genre then
      some (genre, min_per_genre - genre_count enriched genre)
    else none)

/-- An ERec built from a genre-fill hit (recommender.py:300-305): the TMDB
movie data with a fixed lower score 0.5 and a synthetic source. -/
def mkGenreFill (movie_data : Movie) (rec : GRec) : ERec :=
  { title := movie_data.title, year := movie_data.year, score := 1/2,
    sources := ["claude-genre-fill"], reasons := [rec.reasoning],
    tmdb_id := movie_data.tmdb_id, poster_path := movie_data.poster_path,
    genres := movie_data.genres, overview := movie_data.overview,
    streaming_providers := movie_data.streaming_providers,
    imdb_id := movie_data.imdb_id, tmdb_rating := movie_data.tmdb_rating,
    imdb_rating := movie_data.imdb_rating, rt_rating := movie_data.rt_rating }

/-- The inner fill loop for one genre (recommender.py:287-308): stop once
`needed` were added, skip rec titles already in the running seen-set, search
TMDB, keep only hits that actually carry the genre; the seen-set records the
lowercased rec title while the appended entry carries the TMDB title. -/
def genreFillLoop (search_movie : String → Option Int → Option Movie)
    (genre : String) (needed : Nat) :
    List GRec → List ERec → List String → Nat → List ERec × List String
  | [], enriched, existing_titles, _ => (enriched, existing_titles)
  | rec :: rest, enriched, existing_titles, added =>
    if needed ≤ added then (enriched, existing_titles)
    else if pyLower rec.title ∈ existing_titles then
      genreFillLoop search_movie genre needed rest enriched existing_titles added
    else
      match search_movie rec.title rec.year with
      | some movie_data =>
        if genre ∈ movie_data.genres then
          genreFillLoop search_movie genre needed rest
            (enriched ++ [mkGenreFill movie_data rec])
            (existing_titles ++ [pyLower rec.title]) (added + 1)
        else genreFillLoop search_movie genre needed rest enriched existing_titles added
      | none => genreFillLoop search_movie genre needed rest enriched existing_titles added

/-- The loop over under-represented genres (recommender.py:235-313).  One
Anthropic call per genre produces a list of genre recs; call plus JSON
parsing is abstracted as the oracle `genre_fill genre needed` (the ratings
only shape the prompt) and any exception skips the genre. -/
def genreLoop (genre_fill : String → Nat → Except Unit (List GRec))
    (search_movie : String → Option Int → Option Movie) :
    List (String × Nat) → List ERec → List String → List ERec
  | [], enriched, _ => enriched
  | (genre, needed) :: rest, enriched, existing_titles =>
    match genre_fill genre needed with
    | .error _ => genreLoop genre_fill search_movie rest enriched existing_titles
    | .ok genre_recs =>
      let step := genreFillLoop search_movie genre needed genre_recs enriched existing_titles 0
      genreLoop genre_fill search_movie rest step.1 step.2

/-- `ensure_genre_diversity` (recommender.py:191-327).  When every target
genre already meets the minimum, the input list is returned unchanged;
otherwise the seen-set is seeded with the lowercased input titles and the
under-represented genres are backfilled. -/
def ensure_genre_diversity (genre_fill : String → Nat → Except Unit (List GRec))
    (search_movie : String → Option Int → Option Movie)
    (enriched : List ERec) (min_per_genre : Nat) : List ERec :=
  if (under_represented enriched min_per_genre).isEmpty then enriched
  else
    genreLoop genre_fill search_movie (under_represented enriched min_per_genre)
      enriched (enriched.map (fun m => pyLower m.title))

/-! ## Generation jobs (database.py) -/

/-- A row of the generation_jobs table (wall-clock columns omitted). -/
structure GenerationJob where
  id : Nat
  user_id : Nat
  status : String
  stage : String
  progress : Int
  error_message : Option String
deriving DecidableEq

/-- SQLite `lastrowid` of the insert: a fresh id above every existing row. -/
def nextJobId (jobs : List GenerationJob) : Nat :=
  (jobs.map (·.id)).foldr max 0 + 1

/-- `create_generation_job` (database.py:1388-1408): first every pending or
running job of the owner is set to cancelled, then the new job is inserted
with status running, stage starting, progress 0; the new job id is
returned. -/
def create_generation_job (jobs : List GenerationJob) (user_id : Nat) :
    List GenerationJob × Nat :=
  let cancelled := jobs.map (fun j =>
    if j.user_id = user_id ∧ (j.status = "pending" ∨ j.status = "running") then
      { j with status := "cancelled" }
    else j)
  let job_id := nextJobId jobs
  (cancelled ++
    [{ id := job_id, user_id := user_id, status := "running", stage := "starting",
       progress := 0, error_message := none }], job_id)

/-- `update_generation_job` (database.py:1411-1447): each argument that is
provided overwrites the corresponding column of the job with this id. -/
def update_generation_job (jobs : List GenerationJob) (job_id : Nat)
    (stage : Option String) (progress : Option Int) (status : Option String)
    (error_message : Option String) : List GenerationJob :=
  jobs.map (fun j =>
    if j.id = job_id then
      { j with
        stage := stage.getD j.stage
        progress := progress.getD j.progress
        status := status.getD j.status
        error_message :=
          match error_message with
          | some e => some e
          | none => j.error_message }
    else j)

/-! ## Main pipeline (recommender.py, `generate_and_save_recommendations`) -/

/-- `PROGRESS_STAGES` (recommender.py:21-31). -/
def PROGRESS_STAGES : List (String × Int) :=
  [("starting", 0), ("loading_ratings", 5), ("ai_recommendations", 10),
   ("cf_recommendations", 60), ("aggregating", 70), ("enriching_tmdb", 75),
   ("genre_diversity", 90), ("saving", 95), ("completed", 100)]

/-- Python truthiness of the optional `job_id` (`if job_id:`): `None` and
`0` are falsy. -/
def jobTruthy : Option Nat → Bool
  | none => false
  | some n => n != 0

/-- The `update_progress` helper (recommender.py:339-344), with the progress
defaulted from `PROGRESS_STAGES.get(stage, 0)`. -/
def update_progress (jobs : List GenerationJob) (job_id : Option Nat)
    (stage : String) : List GenerationJob :=
  if jobTruthy job_id then
    update_generation_job jobs (job_id.getD 0) (some stage)
      (some ((PROGRESS_STAGES.lookup stage).getD 0)) none none
  else jobs

/-- An ERec built from TMDB movie data with aggregation metadata attached,
used by the minimum-total backfill (recommender.py:410-415). -/
def movieToERec (movie_data : Movie) (score : ℚ) (sources : List String)
    (reasons : List String) : ERec :=
  { title := movie_data.title, year := movie_data.year, score := score,
    sources := sources, reasons := reasons, tmdb_id := movie_data.tmdb_id,
    poster_path := movie_data.poster_path, genres := movie_data.genres,
    overview := movie_data.overview,
    streaming_providers := movie_data.streaming_providers,
    imdb_id := movie_data.imdb_id, tmdb_rating := movie_data.tmdb_rating,
    imdb_rating := movie_data.imdb_rating, rt_rating := movie_data.rt_rating }

/-- `MIN_TOTAL` (recommender.py:397). -/
def MIN_TOTAL : Nat := 25

/-- The backfill loop (recommender.py:405-417): walk the unused aggregated
tail, stop once the minimum is met, search TMDB and append hits whose id was
not already taken. -/
def minTotalLoop (search_movie : String → Option Int → Option Movie) :
    List Cand → List ERec → List Nat → List ERec
  | [], enriched, _ => enriched
  | rec :: rest, enriched, existing_tmdb_ids =>
    if MIN_TOTAL ≤ enriched.length then enriched
    else
      match search_movie (rec.title.getD "") rec.year with
      | some movie_data =>
        if movie_data.tmdb_id ∉ existing_tmdb_ids then
          minTotalLoop search_movie rest
            (enriched ++ [movieToERec movie_data rec.score rec.sources rec.reasons])
            (existing_tmdb_ids ++ [movie_data.tmdb_id])
        else minTotalLoop search_movie rest enriched existing_tmdb_ids
      | none => minTotalLoop search_movie rest enriched existing_tmdb_ids

/-- The minimum-total pass (recommender.py:396-419): when fewer than
MIN_TOTAL enriched recs exist, pull from `aggregated[count : count + 2 *
additional_needed]`; `existing_tmdb_ids` keeps the truthy (non-zero) ids. -/
def ensureMinTotal (search_movie : String → Option Int → Option Movie)
    (count : Nat) (aggregated : List Cand) (enriched : List ERec) : List ERec :=
  if enriched.length < MIN_TOTAL then
    let additional_needed := MIN_TOTAL - enriched.length
    let existing_tmdb_ids :=
      (enriched.filter (fun m => decide (m.tmdb_id ≠ 0))).map (·.tmdb_id)
    minTotalLoop search_movie
      ((aggregated.drop count).take (additional_needed * 2)) enriched existing_tmdb_ids
  else enriched

/-- The row written by `add_movie` plus `add_recommendation` for one saved
recommendation (recommender.py:449-511). -/
structure SavedRec where
  tmdb_id : Nat
  title : String
  year : Option Int
  source : String
  score : ℚ
  reasoning : String
  user_id : Option Nat
deriving DecidableEq

/-- Saving an unwatched rec (recommender.py:449-480): primary source is the
first contributing source, reasoning the first recorded rationale. -/
def toSavedRec (user_id : Option Nat) (rec : ERec) : SavedRec :=
  { tmdb_id := rec.tmdb_id, title := rec.title, year := rec.year,
    source := rec.sources.headD "unknown", score := rec.score,
    reasoning := rec.reasons.headD "", user_id := user_id }

/-- Saving an already-watched rec (recommender.py:483-511): same, but the
score is halved so these appear later. -/
def toSavedRecWatched (user_id : Option Nat) (rec : ERec) : SavedRec :=
  { toSavedRec user_id rec with score := rec.score * (1/2) }

/-- The unwatched / already-watched split (recommender.py:429-436), keeping
the original order inside each part. -/
def splitWatched (watched_ids : List Nat) : List ERec → List ERec × List ERec
  | [] => ([], [])
  | rec :: rest =>
    let split := splitWatched watched_ids rest
    if rec.tmdb_id ∈ watched_ids then (split.1, rec :: split.2)
    else (rec :: split.1, split.2)

/-- The save stage (recommender.py:426-513): all unwatched recs are saved,
then at most `int(count * 0.4)` already-watched ones with halved score; the
remaining already-watched recs are dropped. -/
def saveStage (count : Nat) (user_id : Option Nat) (watched_ids : List Nat)
    (enriched : List ERec) : List SavedRec :=
  let split := splitWatched watched_ids enriched
  let max_watched_count := count * 2 / 5
  let watched_to_include := split.2.take max_watched_count
  split.1.map (toSavedRec user_id) ++ watched_to_include.map (toSavedRecWatched user_id)

/-- The external collaborators of one pipeline run. -/
structure PipelineEnv where
  ratingsOf : Option Nat → List Rating
  watchedOf : Option Nat → List Nat
  ai : AIEnv
  svdFit : List Rating → (Nat → ℚ)
  get_popular : Nat → List PopMovie
  get_movie_details : Nat → Movie
  search_movie : String → Option Int → Option Movie
  genre_fill : String → Nat → Except Unit (List GRec)

/-- The enriched list as it stands right before saving
(recommender.py:368-419): fan-out, CF (which loads the global ratings, user
`None`), aggregation, enrichment of the first `count` aggregated recs,
genre diversity, minimum-total backfill. -/
def pipelineEnriched (env : PipelineEnv) (count : Nat) : List ERec :=
  let ai_results := get_all_ai_recommendations env.ai
  let cf_results := generate_cf_recommendations (env.ratingsOf none) env.svdFit env.get_popular 15
  let aggregated := aggregate_recommendations ai_results cf_results
  let enriched := enrichAfterAggregation env.get_movie_details env.search_movie count aggregated
  let enriched := ensure_genre_diversity env.genre_fill env.search_movie enriched 5
  ensureMinTotal env.search_movie count aggregated enriched

/-- `generate_and_save_recommendations` (recommender.py:330-526), returning
the final job table and the saved recommendation rows in save order.  The
`clear_recommendations` call empties the previous rows, so the returned list
is the complete recommendations store of the user after the run. -/
def generate_and_save_recommendations (env : PipelineEnv) (count : Nat)
    (user_id : Option Nat) (job_id : Option Nat) (jobs : List GenerationJob) :
    List GenerationJob × List SavedRec :=
  let jobs := update_progress jobs job_id "starting"
  let jobs := update_progress jobs job_id "loading_ratings"
  let ratings := env.ratingsOf user_id
  if ratings.isEmpty then
    (if jobTruthy job_id then
       update_generation_job jobs (job_id.getD 0) none none (some "failed")
         (some "No ratings found")
     else jobs, [])
  else
    let jobs := update_progress jobs job_id "ai_recommendations"
    let jobs := update_progress jobs job_id "cf_recommendations"
    let jobs := update_progress jobs job_id "aggregating"
    let jobs := update_progress jobs job_id "enriching_tmdb"
    let jobs := update_progress jobs job_id "genre_diversity"
    let jobs := update_progress jobs job_id "saving"
    let enriched := pipelineEnriched env count
    let saved := saveStage count user_id (env.watchedOf user_id) enriched
    let jobs :=
      if jobTruthy job_id then
        update_generation_job jobs (job_id.getD 0) none (some 100) (some "completed") none
      else jobs
    (jobs, saved)

/-! ## Concrete scenarios used by the counterexamples and witnesses -/

def p_up_dot : Proposal := { title := "Up.", year := some 2009, reasoning := "", streaming := none }

def p_up : Proposal := { title := "Up", year := some 2009, reasoning := "", streaming := none }

def c1_ai : List (String × List Proposal) := [("claude", [p_up_dot]), ("gemini", [p_up])]

def pA : Proposal := { title := "A", year := some 2000, reasoning := "", streaming := none }

def pB : Proposal := { title := "B", year := some 2001, reasoning := "", streaming := none }

def pC : Proposal := { title := "C", year := some 2002, reasoning := "", streaming := none }

def pD : Proposal := { title := "D", year := some 2003, reasoning := "", streaming := none }

/-- Four active models: each carries per-model weight 0.80 / 4 = 0.20. -/
def c3_ai : List (String × List Proposal) :=
  [("m1", [pA, pA, pA, pA, pB]), ("m2", [pB]), ("m3", [pC]), ("m4", [pD])]

def c3_cf : List CFRec :=
  [{ title := "B", year := some 2001, tmdb_id := 7, score := 4, reasoning := "" }]

def movie_b : Movie :=
  { tmdb_id := 501, title := "B", year := some 2001, poster_path := none, genres := [],
    overview := "", streaming_providers := [], imdb_id := none, tmdb_rating := none,
    imdb_rating := none, rt_rating := none }

def cand_a : Cand :=
  { title := some "A", year := some 2000, score := 1, sources := ["claude"], reasons := [],
    tmdb_id := none, streaming := none }

def cand_b : Cand :=
  { title := some "B", year := some 2001, score := 9/10, sources := ["gemini"], reasons := [],
    tmdb_id := none, streaming := none }

/-- A TMDB search oracle that only finds the title "B". -/
def searchOnlyB : String → Option Int → Option Movie :=
  fun t _ => if t = "B" then some movie_b else none

def detailsStub : Nat → Movie := fun _ => movie_b

def envAllInactive : AIEnv :=
  { anthropic_key := false, openai_key := false, google_key := false,
    claude_response := .error (), chatgpt_response := .error (),
    gemini_response := .error () }

/-- An enriched rec carrying every target genre, so genre coverage is met. -/
def allGenresERec (i : Nat) (t : String) : ERec :=
  { (default : ERec) with title := t, tmdb_id := i, genres := target_genres }

/-- Five fully-covered recs, two of which share a title up to case. -/
def c8_input : List ERec :=
  [allGenresERec 1 "Heat", allGenresERec 2 "heat", allGenresERec 3 "C",
   allGenresERec 4 "D", allGenresERec 5 "E"]

def fillNone : String → Nat → Except Unit (List GRec) := fun _ _ => .error ()

def searchNone : String → Option Int → Option Movie := fun _ _ => none

/-- The keys seen after touching one more merge key: unchanged when already
present, appended otherwise (the key behaviour of `updKey`). -/
def insertKey {α : Type} [DecidableEq α] (acc : List α) (k : α) : List α :=
  if k ∈ acc then acc else acc ++ [k]

/-- The keys seen after touching a list of merge keys in order. -/
def seenKeys {α : Type} [DecidableEq α] (acc ks : List α) : List α :=
  ks.foldl insertKey acc

/-- A run with one active model, for the C2 witness. -/
def c2_ai : List (String × List Proposal) := [("claude", [pA])]

def ratings4 : List Rating :=
  [{ tmdb_id := 1, title := "a", year := none, rating := 4, genres := [] },
   { tmdb_id := 2, title := "b", year := none, rating := 4, genres := [] },
   { tmdb_id := 3, title := "c", year := none, rating := 7/2, genres := [] },
   { tmdb_id := 4, title := "d", year := none, rating := 5, genres := [] }]

def ratings5 : List Rating :=
  ratings4 ++ [{ tmdb_id := 5, title := "e", year := none, rating := 3, genres := [] }]

def zeroFit : List Rating → (Nat → ℚ) := fun _ _ => 3

def noPopular : Nat → List PopMovie := fun _ => []

def jobs0 : List GenerationJob :=
  [{ id := 1, user_id := 7, status := "running", stage := "ai_recommendations",
     progress := 50, error_message := none }]

/-- An environment where every key is present but the Claude call raised. -/
def envClaudeError : AIEnv :=
  { anthropic_key := true, openai_key := true, google_key := true,
    claude_response := .error (), chatgpt_response := .ok [pA],
    gemini_response := .ok [pB] }

/-- The trivial environment with no ratings and no active source. -/
def envNoRatings : PipelineEnv :=
  { ratingsOf := fun _ => [], watchedOf := fun _ => [], ai := envAllInactive,
    svdFit := zeroFit, get_popular := noPopular, get_movie_details := detailsStub,
    search_movie := searchNone, genre_fill := fillNone }

def rating1 : Rating := { tmdb_id := 10, title := "M", year := some 2000, rating := 4, genres := [] }

/-- An environment with one rating, for the C10 witness. -/
def envOneRating : PipelineEnv :=
  { envNoRatings with ratingsOf := fun _ => [rating1] }

/-! ## Theorems -/

/-! ### Lemmas about the stable descending sort -/

theorem insertDescBy_perm {α : Type} (key : α → ℚ) (x : α) (l : List α) :
    (insertDescBy key x l).Perm (x :: l) := by
  induction l with
  | nil => exact List.Perm.refl _
  | cons y ys ih =>
    unfold insertDescBy
    split
    · exact (ih.cons y).trans (List.Perm.swap x y ys)
    · exact List.Perm.refl _

theorem foldl_insertDescBy_perm {α : Type} (key : α → ℚ) (l acc : List α) :
    (l.foldl (fun a x => insertDescBy key x a) acc).Perm (acc ++ l) := by
  induction l generalizing acc with
  | nil => simp
  | cons x xs ih =>
    have h1 := ih (insertDescBy key x acc)
    have h2 := (insertDescBy_perm key x acc).append_right xs
    have h3 : ((x :: acc) ++ xs).Perm (acc ++ x :: xs) := List.perm_middle.symm
    exact (h1.trans h2).trans h3

theorem sortDescBy_perm {α : Type} (key : α → ℚ) (l : List α) : (sortDescBy key l).Perm l :=
  foldl_insertDescBy_perm key l []

theorem insertDescBy_sorted {α : Type} (key : α → ℚ) (x : α) {l : List α}
    (h : l.Pairwise (fun a b => key b ≤ key a)) :
    (insertDescBy key x l).Pairwise (fun a b => key b ≤ key a) := by
  induction l with
  | nil => simp [insertDescBy]
  | cons y ys ih =>
    obtain ⟨hy, hys⟩ := List.pairwise_cons.1 h
    unfold insertDescBy
    split
    · rename_i hle
      refine List.pairwise_cons.2 ⟨?_, ih hys⟩
      intro z hz
      rcases List.mem_cons.1 ((insertDescBy_perm key x ys).mem_iff.1 hz) with hz1 | hz1
      · exact hz1 ▸ hle
      · exact hy z hz1
    · rename_i hgt
      have hyx : key y ≤ key x := le_of_not_le hgt
      refine List.pairwise_cons.2 ⟨?_, h⟩
      intro z hz
      rcases List.mem_cons.1 hz with hz1 | hz1
      · exact hz1 ▸ hyx
      · exact le_trans (hy z hz1) hyx

theorem foldl_insertDescBy_sorted {α : Type} (key : α → ℚ) (l : List α) {acc : List α}
    (h : acc.Pairwise (fun a b => key b ≤ key a)) :
    (l.foldl (fun a x => insertDescBy key x a) acc).Pairwise (fun a b => key b ≤ key a) := by
  induction l generalizing acc with
  | nil => exact h
  | cons x xs ih => exact ih (insertDescBy_sorted key x h)

theorem sortDescBy_sorted {α : Type} (key : α → ℚ) (l : List α) :
    (sortDescBy key l).Pairwise (fun a b => key b ≤ key a) :=
  foldl_insertDescBy_sorted key l List.Pairwise.nil

/-- C2: with k active LLM sources (k at least 1), each active source gets
weight 0.80 / k from the weights dict, those per-source weights sum to
exactly 0.80 regardless of k, and the CF weight constant added per CF
recommendation is the fixed 0.20, independent of k. -/
theorem c2_llm_weight_budget (ai_results : List (String × List Proposal))
    (h : 1 ≤ num_ai_models ai_results) :
    (∀ s ∈ active_ai_models ai_results,
        weights ai_results s = (4/5) / (num_ai_models ai_results : ℚ)) ∧
    ((active_ai_models ai_results).map (weights ai_results)).sum = 4/5 ∧
    cf_weight = 1/5 := by
  have hk : num_ai_models ai_results ≠ 0 := by omega
  have hw : ∀ s ∈ active_ai_models ai_results,
      weights ai_results s = (4/5) / (num_ai_models ai_results : ℚ) := by
    intro s hs
    simp [weights, hs, ai_weight_per_model, hk]
  refine ⟨hw, ?_, rfl⟩
  have hval : ∀ x ∈ (active_ai_models ai_results).map (weights ai_results),
      x = (4/5) / (num_ai_models ai_results : ℚ) := by
    intro x hx
    obtain ⟨s, hs, rfl⟩ := List.mem_map.1 hx
    exact hw s hs
  rw [List.sum_eq_card_nsmul _ _ hval, List.length_map]
  have hq : (num_ai_models ai_results : ℚ) ≠ 0 := Nat.cast_ne_zero.2 hk
  rw [nsmul_eq_mul]
  show (num_ai_models ai_results : ℚ) * ((4/5) / (num_ai_models ai_results : ℚ)) = 4/5
  field_simp
  ring

theorem c2_witness :
    (∀ s ∈ active_ai_models c2_ai,
        weights c2_ai s = (4/5) / (num_ai_models c2_ai : ℚ)) ∧
    ((active_ai_models c2_ai).map (weights c2_ai)).sum = 4/5 ∧
    cf_weight = 1/5 :=
  c2_llm_weight_budget c2_ai (by decide)

/-- C3 as amended: the aggregator output is sorted descending by final
score and is a permutation of the accumulated consensus-scored candidates;
equal scores keep the dict insertion order of the stable sort, with no
source-count tie-break. -/
theorem c3_ranking (ai_results : List (String × List Proposal)) (cf_results : List CFRec) :
    (aggregate_recommendations ai_results cf_results).Pairwise
      (fun a b => b.score ≤ a.score) ∧
    (aggregate_recommendations ai_results cf_results).Perm
      (scoredCandidates ai_results cf_results) :=
  ⟨sortDescBy_sorted Cand.score _, sortDescBy_perm Cand.score _⟩

/-- C1, counterexample: the proposals "Up." and "Up" (same year) have the
same case-folded punctuation-stripped title, yet the aggregator produces two
distinct ScoredCandidates for them, because `normalize_title` only strips
the characters ':' and '-', not all punctuation. -/
theorem c1_counterexample :
    normalize_title_spec "Up." = normalize_title_spec "Up" ∧
    normalize_title "Up." ≠ normalize_title "Up" ∧
    (aggregate_recommendations c1_ai []).length = 2 := by decide

/-! ### Lemmas about enrichment -/

theorem enrich_with_tmdb_append (det : Nat → Movie)
    (search : String → Option Int → Option Movie) (l₁ l₂ : List Cand) :
    enrich_with_tmdb det search (l₁ ++ l₂) =
      enrich_with_tmdb det search l₁ ++ enrich_with_tmdb det search l₂ := by
  induction l₁ with
  | nil => rfl
  | cons rec rest ih =>
    show enrich_with_tmdb det search (rec :: (rest ++ l₂)) = _
    cases htid : rec.tmdb_id with
    | some tid => simp [enrich_with_tmdb, htid, ih]
    | none =>
      cases hs : search (rec.title.getD "") rec.year with
      | some movie_data => simp [enrich_with_tmdb, htid, hs, ih]
      | none => simp [enrich_with_tmdb, htid, hs, ih]

theorem enrich_with_tmdb_length_le (det : Nat → Movie)
    (search : String → Option Int → Option Movie) (l : List Cand) :
    (enrich_with_tmdb det search l).length ≤ l.length := by
  induction l with
  | nil => exact Nat.le_refl 0
  | cons rec rest ih =>
    cases htid : rec.tmdb_id with
    | some tid =>
      simp only [enrich_with_tmdb, htid, List.length_cons]
      exact Nat.succ_le_succ ih
    | none =>
      cases hs : search (rec.title.getD "") rec.year with
      | some movie_data =>
        simp only [enrich_with_tmdb, htid, hs, List.length_cons]
        exact Nat.succ_le_succ ih
      | none =>
        simp only [enrich_with_tmdb, htid, hs]
        exact Nat.le_succ_of_le ih

/-- C4 as amended: the pipeline truncates the aggregated list to the
requested count before enrichment, not after — the enrichment stage output
is exactly the enrichment of the first `count` aggregated candidates (a
prefix of the full enrichment), and so its length never exceeds `count` and
drops below `count` whenever one of those first candidates misses on TMDB. -/
theorem c4_truncation_before_enrichment (det : Nat → Movie)
    (search : String → Option Int → Option Movie) (count : Nat)
    (aggregated : List Cand) :
    enrichAfterAggregation det search count aggregated ++
        enrich_with_tmdb det search (aggregated.drop count) =
      enrich_with_tmdb det search aggregated ∧
    (enrichAfterAggregation det search count aggregated).length ≤ count := by
  constructor
  · rw [enrichAfterAggregation, ← enrich_with_tmdb_append, List.take_append_drop]
  · calc (enrichAfterAggregation det search count aggregated).length
        ≤ (aggregated.take count).length := enrich_with_tmdb_length_le det search _
      _ ≤ count := by simp [List.length_take]

theorem get_cf_rec_guarantees (get_popular : Nat → List PopMovie) (predict : Nat → ℚ)
    (ratings : List Rating) (count : Nat) :
    (get_cf_recommendations get_popular (some predict) ratings count).Pairwise
      (fun a b => b.score ≤ a.score) ∧
    ∀ r ∈ get_cf_recommendations get_popular (some predict) ratings count,
      r.tmdb_id ∉ ratings.map Rating.tmdb_id := by
  have hbody : get_cf_recommendations get_popular (some predict) ratings count =
      (if ((get_popular 1 ++ get_popular 2).filter
            (fun m => decide (m.tmdb_id ∉ ratings.map (·.tmdb_id)))).isEmpty then []
       else
        (sortDescBy CFRec.score
          (((get_popular 1 ++ get_popular 2).filter
              (fun m => decide (m.tmdb_id ∉ ratings.map (·.tmdb_id)))).map
            (fun movie =>
              { title := movie.title, year := movie.year, tmdb_id := movie.tmdb_id,
                score := predict movie.tmdb_id,
                reasoning := cfReasoning (predict movie.tmdb_id) : CFRec }))).take count) :=
    rfl
  rw [hbody]
  by_cases hempty : ((get_popular 1 ++ get_popular 2).filter
      (fun m => decide (m.tmdb_id ∉ ratings.map (·.tmdb_id)))).isEmpty
  · rw [if_pos hempty]
    exact ⟨List.Pairwise.nil, by simp⟩
  · rw [if_neg hempty]
    constructor
    · exact (sortDescBy_sorted CFRec.score _).sublist (List.take_sublist count _)
    · intro r hr
      have hr1 := (List.take_sublist count _).mem hr
      have hr2 := (sortDescBy_perm CFRec.score _).mem_iff.1 hr1
      obtain ⟨movie, hmovie, rfl⟩ := List.mem_map.1 hr2
      have hmem := List.of_mem_filter hmovie
      simpa using of_decide_eq_true hmem

/-- C5: the CF engine returns no recommendations when fewer than 5
historical ratings exist; with at least 5 ratings it returns predictions
ranked by predicted rating descending, none of which carries the TMDB id of
a rated (watched) movie. -/
theorem c5_cf_guarantees (ratings : List Rating) (svdFit : List Rating → (Nat → ℚ))
    (get_popular : Nat → List PopMovie) (count : Nat) :
    (ratings.length < 5 →
      generate_cf_recommendations ratings svdFit get_popular count = []) ∧
    (5 ≤ ratings.length →
      (generate_cf_recommendations ratings svdFit get_popular count).Pairwise
        (fun a b => b.score ≤ a.score) ∧
      ∀ r ∈ generate_cf_recommendations ratings svdFit get_popular count,
        r.tmdb_id ∉ ratings.map Rating.tmdb_id) := by
  constructor
  · intro hlt
    by_cases he : ratings.isEmpty
    · simp [generate_cf_recommendations, he]
    · simp [generate_cf_recommendations, he, train_cf_model, hlt]
  · intro hge
    have he : ratings.isEmpty = false := by
      rcases ratings with _ | _
      · simp at hge
      · rfl
    have htr : train_cf_model svdFit ratings = some (svdFit ratings) := by
      have hcond : ¬ (ratings.isEmpty = true ∨ ratings.length < 5) := by
        rw [he]
        simp
        omega
      simp only [train_cf_model, if_neg hcond]
    have hgen : generate_cf_recommendations ratings svdFit get_popular count =
        get_cf_recommendations get_popular (some (svdFit ratings)) ratings count := by
      simp [generate_cf_recommendations, he, htr]
    rw [hgen]
    exact get_cf_rec_guarantees get_popular (svdFit ratings) ratings count

theorem c5_witness :
    generate_cf_recommendations ratings4 zeroFit noPopular 15 = [] ∧
    ((generate_cf_recommendations ratings5 zeroFit noPopular 15).Pairwise
        (fun a b => b.score ≤ a.score) ∧
      ∀ r ∈ generate_cf_recommendations ratings5 zeroFit noPopular 15,
        r.tmdb_id ∉ ratings5.map Rating.tmdb_id) :=
  ⟨(c5_cf_guarantees ratings4 zeroFit noPopular 15).1 (by decide),
   (c5_cf_guarantees ratings5 zeroFit noPopular 15).2 (by decide)⟩

/-- C6: creating a generation job first cancels every pending or running job
of the owner and appends the new job in running status, so afterwards the
new job is the owner's only non-terminal (pending or running) job; every
previously non-terminal job of the owner is present in cancelled status. -/
theorem c6_single_live_job (jobs : List GenerationJob) (uid : Nat) :
    ((create_generation_job jobs uid).1.filter
        (fun j => decide (j.user_id = uid ∧ (j.status = "pending" ∨ j.status = "running")))) =
      [{ id := (create_generation_job jobs uid).2, user_id := uid, status := "running",
         stage := "starting", progress := 0, error_message := none }] ∧
    ∀ j ∈ jobs, j.user_id = uid → j.status = "pending" ∨ j.status = "running" →
      { j with status := "cancelled" } ∈ (create_generation_job jobs uid).1 := by
  constructor
  · show (List.filter _ (_ ++ _)) = _
    rw [List.filter_append]
    have h1 : (jobs.map (fun j =>
        if j.user_id = uid ∧ (j.status = "pending" ∨ j.status = "running") then
          { j with status := "cancelled" } else j)).filter
        (fun j => decide (j.user_id = uid ∧ (j.status = "pending" ∨ j.status = "running"))) =
        [] := by
      rw [List.filter_eq_nil_iff]
      intro a ha
      obtain ⟨j, _, rfl⟩ := List.mem_map.1 ha
      by_cases hc : j.user_id = uid ∧ (j.status = "pending" ∨ j.status = "running")
      · simp [hc]
      · simp only [if_neg hc]
        simpa using hc
    rw [h1]
    simp [create_generation_job]
  · intro j hj huser hstatus
    show _ ∈ _ ++ _
    refine List.mem_append_left _ ?_
    refine List.mem_map.2 ⟨j, hj, ?_⟩
    rw [if_pos ⟨huser, hstatus⟩]

theorem c6_witness :
    ({ id := 1, user_id := 7, status := "cancelled", stage := "ai_recommendations",
       progress := 50, error_message := none } : GenerationJob) ∈
      (create_generation_job jobs0 7).1 :=
  (c6_single_live_job jobs0 7).2
    { id := 1, user_id := 7, status := "running", stage := "ai_recommendations",
      progress := 50, error_message := none }
    (by decide) rfl (Or.inr rfl)

/-- C7 as amended: fan-out is a total function that always returns a mapping
with entries for all three sources claude, chatgpt, gemini; a source whose
call errors contributes the empty list, and this does not disturb the other
sources' entries; with every source inactive every entry is the empty list
(the returned mapping itself is never empty — see the counterexample). -/
theorem c7_fanout_isolation (env : AIEnv)
    (h : env.claude_response = Except.error ()) :
    (get_all_ai_recommendations env).map Prod.fst = ["claude", "chatgpt", "gemini"] ∧
    (get_all_ai_recommendations env).lookup "claude" = some [] ∧
    (get_all_ai_recommendations env).lookup "gemini" =
      some (get_gemini_recommendations env) ∧
    (env.anthropic_key = false ∧ env.openai_key = false ∧ env.google_key = false →
      ∀ p ∈ get_all_ai_recommendations env, p.2 = []) := by
  have hclaude : get_claude_recommendations env = [] := by
    by_cases hk : env.anthropic_key <;> simp [get_claude_recommendations, hk, h]
  refine ⟨rfl, ?_, ?_, ?_⟩
  · simp [get_all_ai_recommendations, List.lookup, hclaude]
  · simp [get_all_ai_recommendations, List.lookup]
  · rintro ⟨ha, ho, hg⟩ p hp
    have hgemini : get_gemini_recommendations env = [] := by
      simp [get_gemini_recommendations, hg]
    rcases List.mem_cons.1 hp with h1 | h1
    · rw [h1, hclaude]
    rcases List.mem_cons.1 h1 with h2 | h2
    · rw [h2]
      simp [ho]
    rcases List.mem_cons.1 h2 with h3 | h3
    · rw [h3, hgemini]
    · exact absurd h3 (List.not_mem_nil p)

theorem c7_witness :
    (get_all_ai_recommendations envClaudeError).map Prod.fst =
      ["claude", "chatgpt", "gemini"] ∧
    (get_all_ai_recommendations envClaudeError).lookup "claude" = some [] ∧
    (get_all_ai_recommendations envClaudeError).lookup "gemini" =
      some (get_gemini_recommendations envClaudeError) ∧
    (envClaudeError.anthropic_key = false ∧ envClaudeError.openai_key = false ∧
        envClaudeError.google_key = false →
      ∀ p ∈ get_all_ai_recommendations envClaudeError, p.2 = []) :=
  c7_fanout_isolation envClaudeError rfl

theorem mem_update_generation_job_status {jobs : List GenerationJob} {job_id : Nat}
    {stage : Option String} {progress : Option Int} {st err : String}
    {jb : GenerationJob}
    (hmem : jb ∈ update_generation_job jobs job_id stage progress (some st) (some err))
    (hid : jb.id = job_id) :
    jb.status = st ∧ jb.error_message = some err := by
  obtain ⟨a, ha, rfl⟩ := List.mem_map.1 hmem
  by_cases hcase : a.id = job_id
  · simp [hcase]
  · rw [if_neg hcase] at hid ⊢
    exact absurd hid hcase

/-- C9: on a run with zero active opinion sources and an empty historical
rating set, the pipeline stops right after loading ratings and its
generation job ends with status failed and the error message "No ratings
found". -/
theorem c9_no_ratings_failure (env : PipelineEnv) (count : Nat)
    (user_id : Option Nat) (j : Nat) (jobs : List GenerationJob)
    (_hsources : num_ai_models (get_all_ai_recommendations env.ai) = 0)
    (hratings : env.ratingsOf user_id = [])
    (hj : j ≠ 0) :
    ∀ jb ∈ (generate_and_save_recommendations env count user_id (some j) jobs).1,
      jb.id = j → jb.status = "failed" ∧ jb.error_message = some "No ratings found" := by
  intro jb hjb hid
  have hempty : (env.ratingsOf user_id).isEmpty = true := by
    rw [hratings]
    rfl
  have htruthy : jobTruthy (some j) = true := by
    simp [jobTruthy, hj]
  have hres : (generate_and_save_recommendations env count user_id (some j) jobs).1 =
      update_generation_job
        (update_progress (update_progress jobs (some j) "starting") (some j)
          "loading_ratings")
        j none none (some "failed") (some "No ratings found") := by
    simp only [generate_and_save_recommendations, hempty, if_pos, htruthy, if_true,
      Option.getD_some]
  rw [hres] at hjb
  exact mem_update_generation_job_status hjb hid

theorem c9_witness :
    ({ id := 1, user_id := 7, status := "failed", stage := "loading_ratings",
       progress := 5, error_message := some "No ratings found" } : GenerationJob).status =
        "failed" ∧
    ({ id := 1, user_id := 7, status := "failed", stage := "loading_ratings",
       progress := 5, error_message := some "No ratings found" } : GenerationJob).error_message =
        some "No ratings found" :=
  c9_no_ratings_failure envNoRatings 15 (some 7) 1
    [{ id := 1, user_id := 7, status := "running", stage := "starting",
       progress := 0, error_message := none }]
    (by decide) rfl (by decide)
    { id := 1, user_id := 7, status := "failed", stage := "loading_ratings",
      progress := 5, error_message := some "No ratings found" }
    (by decide) rfl

theorem splitWatched_eq_filter (watched_ids : List Nat) (l : List ERec) :
    splitWatched watched_ids l =
      (l.filter (fun r => decide (r.tmdb_id ∉ watched_ids)),
       l.filter (fun r => decide (r.tmdb_id ∈ watched_ids))) := by
  induction l with
  | nil => rfl
  | cons rec rest ih =>
    by_cases hmem : rec.tmdb_id ∈ watched_ids
    · simp [splitWatched, ih, hmem]
    · simp [splitWatched, ih, hmem]

/-- C10: on every run that reaches the save stage, the saved rows are
exactly: every enriched candidate whose TMDB id is not in the owner's
watched set, saved with its aggregate score, followed by the first
`int(count * 0.4)` already-watched candidates, each saved with its score
multiplied by 0.5; all remaining already-watched candidates are dropped.
The Nat division `count * 2 / 5` used by the model is the floor of
0.4 * count. -/
theorem c10_watched_save_cap (env : PipelineEnv) (count : Nat)
    (user_id : Option Nat) (job_id : Option Nat) (jobs : List GenerationJob)
    (h : env.ratingsOf user_id ≠ []) :
    (generate_and_save_recommendations env count user_id job_id jobs).2 =
      ((pipelineEnriched env count).filter
          (fun r => decide (r.tmdb_id ∉ env.watchedOf user_id))).map (toSavedRec user_id)
        ++ (((pipelineEnriched env count).filter
              (fun r => decide (r.tmdb_id ∈ env.watchedOf user_id))).take
            (count * 2 / 5)).map (toSavedRecWatched user_id) ∧
    Nat.floor ((2/5 : ℚ) * count) = count * 2 / 5 := by
  constructor
  · have hne : (env.ratingsOf user_id).isEmpty = false := by
      simpa using h
    simp only [generate_and_save_recommendations, hne, Bool.false_eq_true, if_false,
      saveStage, splitWatched_eq_filter]
  · have hcast : (2/5 : ℚ) * count = ((count * 2 : ℕ) : ℚ) / ((5 : ℕ) : ℚ) := by
      push_cast
      ring
    rw [hcast, Nat.floor_div_nat, Nat.floor_natCast]

theorem c10_witness :
    (generate_and_save_recommendations envOneRating 15 (some 7) none []).2 =
      ((pipelineEnriched envOneRating 15).filter
          (fun r => decide (r.tmdb_id ∉ envOneRating.watchedOf (some 7)))).map
        (toSavedRec (some 7))
        ++ (((pipelineEnriched envOneRating 15).filter
              (fun r => decide (r.tmdb_id ∈ envOneRating.watchedOf (some 7)))).take
            (15 * 2 / 5)).map (toSavedRecWatched (some 7)) ∧
    Nat.floor ((2/5 : ℚ) * 15) = 15 * 2 / 5 :=
  c10_watched_save_cap envOneRating 15 (some 7) none [] (by decide)

/-! ### Lemmas about the merge-key structure of the score map -/

theorem mem_insertKey {α : Type} [DecidableEq α] {a k : α} {acc : List α} :
    a ∈ insertKey acc k ↔ a ∈ acc ∨ a = k := by
  by_cases hk : k ∈ acc
  · simp only [insertKey, if_pos hk]
    exact ⟨Or.inl, fun h => h.elim id (fun e => e ▸ hk)⟩
  · simp [insertKey, hk]

theorem insertKey_nodup {α : Type} [DecidableEq α] {acc : List α} (k : α)
    (h : acc.Nodup) : (insertKey acc k).Nodup := by
  by_cases hk : k ∈ acc
  · simpa [insertKey, hk] using h
  · simp [insertKey, hk, List.nodup_append, h]

theorem mem_seenKeys {α : Type} [DecidableEq α] {a : α} {ks acc : List α} :
    a ∈ seenKeys acc ks ↔ a ∈ acc ∨ a ∈ ks := by
  induction ks generalizing acc with
  | nil => simp [seenKeys]
  | cons k rest ih =>
    show a ∈ seenKeys (insertKey acc k) rest ↔ _
    rw [ih, mem_insertKey]
    simp [or_assoc]

theorem seenKeys_nodup {α : Type} [DecidableEq α] {acc : List α} (ks : List α)
    (h : acc.Nodup) : (seenKeys acc ks).Nodup := by
  induction ks generalizing acc with
  | nil => exact h
  | cons k rest ih => exact ih (insertKey_nodup k h)

theorem seenKeys_append {α : Type} [DecidableEq α] (acc ks₁ ks₂ : List α) :
    seenKeys acc (ks₁ ++ ks₂) = seenKeys (seenKeys acc ks₁) ks₂ := by
  simp [seenKeys, List.foldl_append]

theorem length_seenKeys_dedup {α : Type} [DecidableEq α] (ks : List α) :
    (seenKeys [] ks).length = ks.dedup.length := by
  have h1 : (seenKeys ([] : List α) ks).Nodup := seenKeys_nodup ks List.nodup_nil
  have h2 : ks.dedup.Nodup := List.nodup_dedup ks
  have hperm : (seenKeys [] ks).Perm ks.dedup := by
    apply List.perm_of_nodup_nodup_toFinset_eq h1 h2
    ext a
    simp [List.mem_toFinset, mem_seenKeys, List.mem_dedup]
  exact hperm.length_eq

theorem map_fst_updKey (m : ScoreMap) (k : MergeKey) (f : Cand → Cand) :
    (updKey m k f).map Prod.fst = insertKey (m.map Prod.fst) k := by
  induction m with
  | nil => simp [updKey, insertKey]
  | cons p rest ih =>
    obtain ⟨k₁, c⟩ := p
    by_cases hk : k₁ = k
    · subst hk
      simp [updKey, insertKey]
    · simp only [updKey, if_neg hk, List.map_cons, ih]
      by_cases hmem : k ∈ rest.map Prod.fst
      · have hcons : k ∈ k₁ :: rest.map Prod.fst := List.mem_cons_of_mem k₁ hmem
        simp [insertKey, hmem, hcons]
      · have hcons : k ∉ k₁ :: rest.map Prod.fst := by
          simp [hmem]
          exact fun e => hk e.symm
        simp [insertKey, hmem, hcons]

theorem map_fst_foldSource (recs : List Proposal) (s : String) (w : ℚ) (m : ScoreMap) :
    (foldSource m s w recs).map Prod.fst =
      seenKeys (m.map Prod.fst) (recs.map Proposal.mergeKey) := by
  induction recs generalizing m with
  | nil => rfl
  | cons rec rest ih =>
    show (foldSource (updKey m rec.mergeKey (applyAIRec s w rec)) s w rest).map Prod.fst = _
    rw [ih, map_fst_updKey]
    rfl

theorem map_fst_foldAI (ai : List (String × List Proposal)) (W : String → ℚ)
    (m : ScoreMap) :
    ((ai.foldl (fun m₁ p => foldSource m₁ p.1 (W p.1) p.2) m).map Prod.fst) =
      seenKeys (m.map Prod.fst)
        ((ai.map (fun p => p.2.map Proposal.mergeKey)).flatten) := by
  induction ai generalizing m with
  | nil => rfl
  | cons p rest ih =>
    show ((rest.foldl (fun m₁ q => foldSource m₁ q.1 (W q.1) q.2)
        (foldSource m p.1 (W p.1) p.2)).map Prod.fst) = _
    rw [ih, map_fst_foldSource, List.map_cons, List.flatten_cons, seenKeys_append]

theorem map_fst_foldCF (cf : List CFRec) (m : ScoreMap) :
    ((cf.foldl (fun m₁ rec => updKey m₁ rec.mergeKey (applyCFRec rec)) m).map Prod.fst) =
      seenKeys (m.map Prod.fst) (cf.map CFRec.mergeKey) := by
  induction cf generalizing m with
  | nil => rfl
  | cons rec rest ih =>
    show ((rest.foldl (fun m₁ r => updKey m₁ r.mergeKey (applyCFRec r))
        (updKey m rec.mergeKey (applyCFRec rec))).map Prod.fst) = _
    rw [ih, map_fst_updKey]
    rfl

theorem map_fst_movie_scores (ai_results : List (String × List Proposal))
    (cf_results : List CFRec) :
    (movie_scores ai_results cf_results).map Prod.fst =
      seenKeys [] (proposalKeys ai_results cf_results) := by
  unfold movie_scores proposalKeys
  rw [map_fst_foldCF, map_fst_foldAI, seenKeys_append]
  rfl

/-- C1 as amended: the merge key is the title lowercased, stripped of
surrounding whitespace and with the characters ':' and '-' removed (not all
punctuation), paired with the year; with this key, merging is exact: the
score map holds each merge key at most once, and the aggregator emits
exactly one ScoredCandidate per distinct merge key occurring among the
proposals. -/
theorem c1_identity_resolution (ai_results : List (String × List Proposal))
    (cf_results : List CFRec) :
    ((movie_scores ai_results cf_results).map Prod.fst).Nodup ∧
    (aggregate_recommendations ai_results cf_results).length =
      (proposalKeys ai_results cf_results).dedup.length := by
  have hkeys := map_fst_movie_scores ai_results cf_results
  constructor
  · rw [hkeys]
    exact seenKeys_nodup _ List.nodup_nil
  · have h1 : (aggregate_recommendations ai_results cf_results).length =
        (scoredCandidates ai_results cf_results).length :=
      (sortDescBy_perm Cand.score _).length_eq
    rw [h1]
    unfold scoredCandidates
    rw [List.length_map, List.length_map, ← List.length_map (movie_scores ai_results cf_results) Prod.fst,
      hkeys, length_seenKeys_dedup]

/-! ### Lemmas about the diversity enforcer seen-set -/

theorem genreFillLoop_inv (search : String → Option Int → Option Movie)
    (hs : ∀ t y m, search t y = some m → pyLower m.title = pyLower t)
    (genre : String) (needed : Nat) (recs : List GRec) :
    ∀ (acc : List ERec) (existing : List String) (added : Nat),
      existing = acc.map (fun m => pyLower m.title) → existing.Nodup →
      (genreFillLoop search genre needed recs acc existing added).2 =
        (genreFillLoop search genre needed recs acc existing added).1.map
          (fun m => pyLower m.title) ∧
      (genreFillLoop search genre needed recs acc existing added).2.Nodup := by
  induction recs with
  | nil =>
    intro acc existing added heq hnd
    exact ⟨heq, hnd⟩
  | cons rec rest ih =>
    intro acc existing added heq hnd
    simp only [genreFillLoop]
    by_cases h1 : needed ≤ added
    · rw [if_pos h1]
      exact ⟨heq, hnd⟩
    · rw [if_neg h1]
      by_cases h2 : pyLower rec.title ∈ existing
      · rw [if_pos h2]
        exact ih _ _ _ heq hnd
      · rw [if_neg h2]
        cases hsm : search rec.title rec.year with
        | none =>
          dsimp only
          exact ih _ _ _ heq hnd
        | some movie_data =>
          dsimp only
          by_cases h3 : genre ∈ movie_data.genres
          · rw [if_pos h3]
            apply ih
            · rw [List.map_append, ← heq]
              have htitle : (mkGenreFill movie_data rec).title = movie_data.title := rfl
              simp [htitle, hs _ _ _ hsm]
            · simp [List.nodup_append, hnd, h2]
          · rw [if_neg h3]
            exact ih _ _ _ heq hnd

theorem genreLoop_inv (genre_fill : String → Nat → Except Unit (List GRec))
    (search : String → Option Int → Option Movie)
    (hs : ∀ t y m, search t y = some m → pyLower m.title = pyLower t)
    (pairs : List (String × Nat)) :
    ∀ (acc : List ERec) (existing : List String),
      existing = acc.map (fun m => pyLower m.title) → existing.Nodup →
      ((genreLoop genre_fill search pairs acc existing).map
          (fun m => pyLower m.title)).Nodup := by
  induction pairs with
  | nil =>
    intro acc existing heq hnd
    show (List.map (fun m => pyLower m.title) acc).Nodup
    rw [← heq]
    exact hnd
  | cons p rest ih =>
    obtain ⟨genre, needed⟩ := p
    intro acc existing heq hnd
    simp only [genreLoop]
    cases hf : genre_fill genre needed with
    | error e =>
      dsimp only
      exact ih _ _ heq hnd
    | ok genre_recs =>
      dsimp only
      obtain ⟨hinv1, hinv2⟩ :=
        genreFillLoop_inv search hs genre needed genre_recs acc existing 0 heq hnd
      exact ih _ _ hinv1 hinv2

/-- C8 as amended: the enforcer checks every backfilled proposal against a
running case-insensitive seen-set seeded from the input titles, so when the
input titles are pairwise distinct up to case and the metadata provider
returns the queried title (up to case), the final list stays free of
case-insensitive duplicate titles.  It does not deduplicate its input:
duplicates already present in the enriched input are preserved (see the
counterexample). -/
theorem c8_no_new_duplicates (genre_fill : String → Nat → Except Unit (List GRec))
    (search : String → Option Int → Option Movie) (enriched : List ERec)
    (min_per_genre : Nat)
    (h1 : (enriched.map (fun m => pyLower m.title)).Nodup)
    (hs : ∀ t y m, search t y = some m → pyLower m.title = pyLower t) :
    ((ensure_genre_diversity genre_fill search enriched min_per_genre).map
        (fun m => pyLower m.title)).Nodup := by
  unfold ensure_genre_diversity
  split
  · exact h1
  · exact genreLoop_inv genre_fill search hs _ enriched _ rfl h1

theorem c8_witness :
    ((ensure_genre_diversity fillNone searchNone [allGenresERec 1 "Heat"] 5).map
        (fun m => pyLower m.title)).Nodup :=
  c8_no_new_duplicates fillNone searchNone [allGenresERec 1 "Heat"] 5 (by decide)
    (fun _ _ _ h => nomatch h)

/-- C3, counterexample: with four active models the run `c3_ai`/`c3_cf`
yields a candidate backed by one source and a candidate backed by three
sources with equal final score 0.8, and the single-source one is ranked
first — the sort is a stable sort on score alone, with no source-count
tie-break. -/
theorem c3_counterexample :
    ((aggregate_recommendations c3_ai c3_cf).getD 0 emptyCand).score =
      ((aggregate_recommendations c3_ai c3_cf).getD 1 emptyCand).score ∧
    ((aggregate_recommendations c3_ai c3_cf).getD 0 emptyCand).sources.length <
      ((aggregate_recommendations c3_ai c3_cf).getD 1 emptyCand).sources.length := by decide

/-- C4, counterexample: with requested count 1, aggregated list [A, B] where
only B resolves on TMDB, the pipeline's enrichment step (which receives
`aggregated[:count]`) returns an empty list, while truncating after
enrichment would have returned one candidate — so truncation happens before
enrichment and enrichment misses do shrink the result below the target. -/
theorem c4_counterexample :
    enrichAfterAggregation detailsStub searchOnlyB 1 [cand_a, cand_b] = [] ∧
    ((enrich_with_tmdb detailsStub searchOnlyB [cand_a, cand_b]).take 1).length = 1 := by
  decide

/-- C7, counterexample: with zero active sources, fan-out does not return an
empty mapping — it returns the mapping with all three source keys, each
bound to the empty list. -/
theorem c7_counterexample :
    get_all_ai_recommendations envAllInactive =
      [("claude", []), ("chatgpt", []), ("gemini", [])] ∧
    get_all_ai_recommendations envAllInactive ≠ [] := by decide

/-- C8, counterexample: a diversity pass over an input list that already
meets every genre minimum returns it unchanged, so two entries whose titles
agree up to case ("Heat" and "heat") survive into the final list — the
enforcer never deduplicates its input. -/
theorem c8_counterexample :
    ensure_genre_diversity fillNone searchNone c8_input 5 = c8_input ∧
    pyLower ((ensure_genre_diversity fillNone searchNone c8_input 5).getD 0 default).title =
      pyLower ((ensure_genre_diversity fillNone searchNone c8_input 5).getD 1 default).title := by
  decide

end FeedMovie
